import Mathlib

/-!
Shallow embedding of the blood-pressure estimation core of the Bio-Track
ESP32 firmware (src/esp32_firmware/src/blood_pressure.cpp together with
include/blood_pressure.h), written to check the natural-language
specification against the code.

Modelling conventions:
* C `float` values are modelled as exact rationals (ℚ).  All arithmetic the
  claims mention (sums, products, divisions, comparisons) is exact here.
* C `unsigned long` millisecond timestamps are modelled as ℕ.  The source
  subtracts unsigned timestamps; in every reachable situation the minuend is
  the later time, where unsigned subtraction and ℕ truncated subtraction
  agree.
* `millis()` is modelled by an explicit `now : ℕ` argument threaded to every
  function whose C body calls `millis()`.
* The peak detectors `detectECGPeak` / `detectPPGPeak` and the threshold
  adapter `adaptThresholds` keep their persistent data in C function-local
  `static` variables, i.e. one copy per process shared by every
  `BloodPressureMonitor` instance.  That shared storage is modelled by the
  explicit `Statics` record threaded through the ingestion functions.
* `sqrt` appears in the source only inside `checkRhythmRegularity`
  (as `sqrt(variance) < mean * 0.2`, expressed here in the exactly
  equivalent squared form) and in `calculateHRV`, whose result no claim
  inspects; for the latter the square of the C result is stored.
-/

/-- `struct Peak { int index; float value; unsigned long timestamp; }`
from blood_pressure.h. -/
structure Peak where
  index : Int
  value : ℚ
  timestamp : Nat
deriving DecidableEq

/-- `struct CalibrationPoint { float ptt, systolic, diastolic; unsigned long timestamp; }`. -/
structure CalibrationPoint where
  ptt : ℚ
  systolic : ℚ
  diastolic : ℚ
  timestamp : Nat
deriving DecidableEq

/-- The four function-local `static` variables of `detectECGPeak` /
`detectPPGPeak` in blood_pressure.cpp (`lastValue`, `lastDerivative`,
`risingEdge`, `lastPeakTime`). -/
structure DetectorState where
  lastValue : ℚ
  lastDerivative : ℚ
  risingEdge : Bool
  lastPeakTime : Nat
deriving DecidableEq

/-- All function-local `static` storage of blood_pressure.cpp.  In C++ these
are one copy per process, shared by every `BloodPressureMonitor` instance. -/
structure Statics where
  ecgDet : DetectorState
  ppgDet : DetectorState
  /-- `static unsigned long lastUpdate` of `adaptThresholds`. -/
  adaptLastUpdate : Nat
deriving DecidableEq

/-- The member fields of `class BloodPressureMonitor` (blood_pressure.h). -/
structure MonitorState where
  calibrationPoints : Fin 5 → CalibrationPoint
  calibrationCount : Nat
  systolicSlope : ℚ
  systolicIntercept : ℚ
  diastolicSlope : ℚ
  diastolicIntercept : ℚ
  ecgBuffer : Fin 200 → ℚ
  ecgBufferIndex : Nat
  ecgTimestamps : Fin 200 → Nat
  ppgBuffer : Fin 200 → ℚ
  ppgBufferIndex : Nat
  ppgTimestamps : Fin 200 → Nat
  ecgPeaks : Fin 20 → Peak
  ppgPeaks : Fin 20 → Peak
  ecgPeakCount : Nat
  ppgPeakCount : Nat
  rrIntervals : Fin 50 → ℚ
  rrCount : Nat
  ecgThreshold : ℚ
  ppgThreshold : ℚ
  adaptiveThresholding : Bool
  lastSignalQuality : ℚ
  lastValidReading : Nat
  ecgFilterBuffer : Fin 10 → ℚ
  ppgFilterBuffer : Fin 10 → ℚ
  filterIndex : Nat
  userAge : Int
  userHeight : ℚ
  userIsMale : Bool

/-- `struct BloodPressureData` (blood_pressure.h).  The field
`heartRateVariabilitySq` stores the square of the C field
`heartRateVariability` (the source applies `sqrt`, which is irrational in
general; no claim inspects this field). -/
structure BloodPressureData where
  systolic : ℚ
  diastolic : ℚ
  meanArterialPressure : ℚ
  pulseTransitTime : ℚ
  pulseWaveVelocity : ℚ
  heartRateVariabilitySq : ℚ
  validReading : Bool
  needsCalibration : Bool
  timestamp : Nat
  signalQuality : ℚ
  correlationCoeff : Int
  rhythmRegular : Bool
deriving DecidableEq

/-- Index helper for the 20-slot peak rings (`% 20` in the source). -/
def fin20 (i : Nat) : Fin 20 := ⟨i % 20, Nat.mod_lt _ (by norm_num)⟩

/-- Index helper for the 50-slot RR ring (`% 50` in the source). -/
def fin50 (i : Nat) : Fin 50 := ⟨i % 50, Nat.mod_lt _ (by norm_num)⟩

/-- Index helper for the 5-slot calibration store. -/
def fin5 (i : Nat) : Fin 5 := ⟨i % 5, Nat.mod_lt _ (by norm_num)⟩

/-- Index helper for the 10-slot filter buffers (`% 10` in the source). -/
def fin10 (i : Nat) : Fin 10 := ⟨i % 10, Nat.mod_lt _ (by norm_num)⟩

/-- Index helper for the 200-slot sample buffers (`% BP_BUFFER_SIZE`). -/
def fin200 (i : Nat) : Fin 200 := ⟨i % 200, Nat.mod_lt _ (by norm_num)⟩

/-- `applyBandpassFilter` (blood_pressure.cpp lines 303-314): writes the new
value into the 10-slot ring at `filterIndex`, advances `filterIndex` modulo
10, and returns the mean of the whole buffer.  Returns
(filtered value, new buffer, new filterIndex). -/
def applyBandpassFilter (buffer : Fin 10 → ℚ) (filterIndex : Nat) (newValue : ℚ) :
    ℚ × (Fin 10 → ℚ) × Nat :=
  let buf := Function.update buffer (fin10 filterIndex) newValue
  let sum := (List.ofFn buf).sum
  (sum / 10, buf, (filterIndex + 1) % 10)

/-- Common body of `detectECGPeak` / `detectPPGPeak` (lines 241-301); the two
C functions are identical except for the threshold and the refractory
constant (300 ms for ECG, 400 ms for PPG).  Returns (peak fired?, new
detector statics). -/
def detectPeakStep (threshold : ℚ) (refractory : Nat) (value : ℚ) (now : Nat)
    (d : DetectorState) : Bool × DetectorState :=
  let derivative := value - d.lastValue
  let rising :=
    if value > threshold ∧ derivative > 0 ∧ d.lastDerivative ≤ 0 then true else d.risingEdge
  if rising ∧ derivative < 0 ∧ d.lastDerivative ≥ 0 then
    if now - d.lastPeakTime > refractory then
      (true, ⟨value, derivative, false, now⟩)
    else
      (false, ⟨value, derivative, false, d.lastPeakTime⟩)
  else
    (false, ⟨value, derivative, rising, d.lastPeakTime⟩)

/-- `detectECGPeak` (lines 241-270): 300 ms refractory. -/
def detectECGPeak (threshold : ℚ) (value : ℚ) (now : Nat) (d : DetectorState) :
    Bool × DetectorState :=
  detectPeakStep threshold 300 value now d

/-- `detectPPGPeak` (lines 272-301): 400 ms refractory. -/
def detectPPGPeak (threshold : ℚ) (value : ℚ) (now : Nat) (d : DetectorState) :
    Bool × DetectorState :=
  detectPeakStep threshold 400 value now d

/-- `updateECGBuffer` (lines 466-470). -/
def updateECGBuffer (s : MonitorState) (value : ℚ) (timestamp : Nat) : MonitorState :=
  { s with
    ecgBuffer := Function.update s.ecgBuffer (fin200 s.ecgBufferIndex) value
    ecgTimestamps := Function.update s.ecgTimestamps (fin200 s.ecgBufferIndex) timestamp
    ecgBufferIndex := (s.ecgBufferIndex + 1) % 200 }

/-- `updatePPGBuffer` (lines 472-476). -/
def updatePPGBuffer (s : MonitorState) (value : ℚ) (timestamp : Nat) : MonitorState :=
  { s with
    ppgBuffer := Function.update s.ppgBuffer (fin200 s.ppgBufferIndex) value
    ppgTimestamps := Function.update s.ppgTimestamps (fin200 s.ppgBufferIndex) timestamp
    ppgBufferIndex := (s.ppgBufferIndex + 1) % 200 }

/-- The peak-recording block of `addECGSample` (lines 70-86): stores the peak
at slot `ecgPeakCount % 20`, increments the count, and records the R-R
interval when it lies strictly between 300 and 2000 ms. -/
def recordECGPeak (s : MonitorState) (filteredECG : ℚ) (timestamp : Nat) : MonitorState :=
  let s1 := { s with
    ecgPeaks := Function.update s.ecgPeaks (fin20 s.ecgPeakCount)
      ⟨Int.ofNat s.ecgBufferIndex, filteredECG, timestamp⟩
    ecgPeakCount := s.ecgPeakCount + 1 }
  if s1.ecgPeakCount > 1 then
    let prevIndex := fin20 (s1.ecgPeakCount - 2)
    let rrInterval : ℚ := ((timestamp - (s1.ecgPeaks prevIndex).timestamp : Nat) : ℚ)
    if rrInterval > 300 ∧ rrInterval < 2000 then
      { s1 with
        rrIntervals := Function.update s1.rrIntervals (fin50 s1.rrCount) rrInterval
        rrCount := s1.rrCount + 1 }
    else s1
  else s1

/-- `adaptThresholds` (lines 437-464): at most every 5000 ms, sets each
threshold to 1.5 times the mean of the first `min(bufferIndex, 50)` buffered
samples.  `lastUpdate` is the function-local static.  Returns (new state, new
lastUpdate). -/
def adaptThresholds (s : MonitorState) (lastUpdate now : Nat) : MonitorState × Nat :=
  if now - lastUpdate < 5000 then (s, lastUpdate)
  else
    let samples := min s.ecgBufferIndex 50
    let ecgMean := ((List.range samples).map (fun i => s.ecgBuffer (fin200 i))).sum
    let ppgMean := ((List.range samples).map (fun i => s.ppgBuffer (fin200 i))).sum
    let s1 :=
      if samples > 0 then
        { s with
          ecgThreshold := ecgMean / samples * (3 / 2)
          ppgThreshold := ppgMean / samples * (3 / 2) }
      else s
    (s1, now)

/-- `addECGSample` (lines 63-92).  `now` models the `millis()` calls made by
`detectECGPeak` and `adaptThresholds` during this ingestion (the firmware
callers pass `timestamp = millis()`, sensors.cpp line 482). -/
def addECGSample (s : MonitorState) (g : Statics) (ecgValue : ℚ) (timestamp now : Nat) :
    MonitorState × Statics :=
  let fr := applyBandpassFilter s.ecgFilterBuffer s.filterIndex ecgValue
  let s1 := { s with ecgFilterBuffer := fr.2.1, filterIndex := fr.2.2 }
  let s2 := updateECGBuffer s1 fr.1 timestamp
  let det := detectECGPeak s2.ecgThreshold fr.1 now g.ecgDet
  let g1 := { g with ecgDet := det.2 }
  let s3 := if det.1 then recordECGPeak s2 fr.1 timestamp else s2
  if s3.adaptiveThresholding then
    let at1 := adaptThresholds s3 g1.adaptLastUpdate now
    (at1.1, { g1 with adaptLastUpdate := at1.2 })
  else (s3, g1)

/-- `addPPGSample` (lines 94-110): uses the IR channel, filters, and appends
a PPG peak on detection (no RR bookkeeping, no threshold adaptation). -/
def addPPGSample (s : MonitorState) (g : Statics) (irValue redValue : ℚ) (timestamp now : Nat) :
    MonitorState × Statics :=
  let ppgValue := irValue
  let fr := applyBandpassFilter s.ppgFilterBuffer s.filterIndex ppgValue
  let s1 := { s with ppgFilterBuffer := fr.2.1, filterIndex := fr.2.2 }
  let s2 := updatePPGBuffer s1 fr.1 timestamp
  let det := detectPPGPeak s2.ppgThreshold fr.1 now g.ppgDet
  let g1 := { g with ppgDet := det.2 }
  let s3 :=
    if det.1 then
      { s2 with
        ppgPeaks := Function.update s2.ppgPeaks (fin20 s2.ppgPeakCount)
          ⟨Int.ofNat s2.ppgBufferIndex, fr.1, timestamp⟩
        ppgPeakCount := s2.ppgPeakCount + 1 }
    else s2
  (s3, g1)

/-- Timestamp of ECG peak number `i` (stored at ring slot `i % 20`). -/
def ecgPeakTime (s : MonitorState) (i : Nat) : Nat := (s.ecgPeaks (fin20 i)).timestamp

/-- Timestamp of PPG peak number `j` (stored at ring slot `j % 20`). -/
def ppgPeakTime (s : MonitorState) (j : Nat) : Nat := (s.ppgPeaks (fin20 j)).timestamp

/-- The outer loop range of `calculatePTT` (line 183):
`for (int i = max(0, ecgPeakCount - 10); i < ecgPeakCount; i++)`.
ℕ truncated subtraction is exactly `max 0 (count - 10)`. -/
def ecgWindow (s : MonitorState) : List Nat :=
  List.range' (s.ecgPeakCount - 10) (s.ecgPeakCount - (s.ecgPeakCount - 10))

/-- The inner loop range of `calculatePTT` (line 188). -/
def ppgWindow (s : MonitorState) : List Nat :=
  List.range' (s.ppgPeakCount - 10) (s.ppgPeakCount - (s.ppgPeakCount - 10))

/-- The inner loop of `calculatePTT` (lines 188-198): scan the PPG window in
order and stop at the first peak with
`ppgTime > ecgTime && ppgTime - ecgTime >= 50 && ppgTime - ecgTime <= 400`,
yielding the delta `ppgTime - ecgTime` (the `break` is `findSome?`). -/
def pttInnerScan (s : MonitorState) (ecgTime : Nat) : Option Nat :=
  (ppgWindow s).findSome? fun j =>
    if ppgPeakTime s j > ecgTime ∧ ppgPeakTime s j - ecgTime ≥ 50 ∧
        ppgPeakTime s j - ecgTime ≤ 400 then
      some (ppgPeakTime s j - ecgTime)
    else none

/-- The body of the outer loop of `calculatePTT` (lines 183-199), acting on
the source's accumulator pair `(totalPTT, validPairs)`: on a match, add the
delta and count the pair; otherwise leave the accumulator unchanged. -/
def pttAccumStep (s : MonitorState) (acc : ℚ × Nat) (i : Nat) : ℚ × Nat :=
  match pttInnerScan s (ecgPeakTime s i) with
  | some ptt => (acc.1 + (ptt : ℚ), acc.2 + 1)
  | none => acc

/-- `calculatePTT` (lines 174-206), translated with the source's accumulator
pair `(totalPTT, validPairs)`: −1 with fewer than 2 peaks on either channel,
otherwise `totalPTT / validPairs`, or −1 when no pair matched. -/
def calculatePTT (s : MonitorState) : ℚ :=
  if s.ecgPeakCount < 2 ∨ s.ppgPeakCount < 2 then -1
  else
    let acc := (ecgWindow s).foldl (pttAccumStep s) ((0 : ℚ), (0 : Nat))
    if acc.2 > 0 then acc.1 / (acc.2 : ℚ) else -1

/-- Claim-side description of the PTT matcher, written from the words of the
specification (§4.4 / claim C2): pair each of the most recent up-to-10 ECG
peaks, oldest first, with the **first** of the most recent up-to-10 PPG peaks
(scanned oldest first) whose timestamp is at least 50 ms and at most 400 ms
after the ECG peak's timestamp. -/
def pttFirstMatch (s : MonitorState) (ecgTime : Nat) : Option Nat :=
  ((ppgWindow s).find? fun j =>
      decide (ecgTime + 50 ≤ ppgPeakTime s j ∧ ppgPeakTime s j ≤ ecgTime + 400)).map
    (fun j => ppgPeakTime s j - ecgTime)

/-- Claim-side list of matched deltas, one per matched ECG peak of the
window, in window order. -/
def pttDeltas (s : MonitorState) : List Nat :=
  (ecgWindow s).filterMap fun i => pttFirstMatch s (ecgPeakTime s i)

/-- Claim-side PTT result: −1 when fewer than 2 ECG or 2 PPG peaks exist or
no pair matches, otherwise the arithmetic mean of the matched deltas. -/
def calculatePTTSpec (s : MonitorState) : ℚ :=
  if s.ecgPeakCount < 2 ∨ s.ppgPeakCount < 2 then -1
  else
    let ds := pttDeltas s
    if ds.isEmpty then -1
    else (ds.map (Nat.cast : ℕ → ℚ)).sum / (ds.length : ℚ)

/-- `calculatePWV` (lines 208-218). -/
def calculatePWV (s : MonitorState) (ptt : ℚ) : ℚ :=
  let pathLength := s.userHeight * (4 / 10) / 100
  if ptt > 0 then pathLength / (ptt / 1000) else 0

/-- Square of `calculateHRV` (lines 220-239): RMSSD over successive RR
differences.  The source returns `sqrt(sumSquaredDiff / validDiffs)`; the
square root of a rational is irrational in general, so this embedding keeps
the radicand (no claim inspects the HRV value). -/
def calculateHRVSq (s : MonitorState) : ℚ :=
  if s.rrCount < 10 then 0
  else
    let m := min s.rrCount 50
    let diffs := (List.range' 1 (m - 1)).map
      (fun i => s.rrIntervals (fin50 i) - s.rrIntervals (fin50 (i - 1)))
    let sumSquaredDiff := (diffs.map (fun d => d * d)).sum
    let validDiffs := m - 1
    if validDiffs > 0 then sumSquaredDiff / (validDiffs : ℚ) else 0

/-- `calculateCorrelation` (lines 343-352): 0 with fewer than 3 peaks on
either channel, otherwise the hardcoded placeholder 85. -/
def calculateCorrelation (s : MonitorState) : Int :=
  if s.ecgPeakCount < 3 ∨ s.ppgPeakCount < 3 then 0 else 85

/-- `checkRhythmRegularity` (lines 354-375): false with fewer than 5 RR
intervals; otherwise regular iff `sqrt(variance) < mean * 0.2` over the first
`min(rrCount, 10)` stored intervals.  Since `sqrt(variance) ≥ 0`, that
comparison holds iff `0 < mean * 0.2` and `variance < (mean * 0.2)²`, which
is the squared form used here (exact over ℚ). -/
def checkRhythmRegularity (s : MonitorState) : Bool :=
  if s.rrCount < 5 then false
  else
    let m := min s.rrCount 10
    let mean := ((List.range m).map (fun i => s.rrIntervals (fin50 i))).sum / (m : ℚ)
    let variance :=
      ((List.range m).map (fun i =>
        (s.rrIntervals (fin50 i) - mean) * (s.rrIntervals (fin50 i) - mean))).sum / (m : ℚ)
    decide (0 < mean * (2 / 10) ∧ variance < (mean * (2 / 10)) * (mean * (2 / 10)))

/-- `assessSignalQuality` (lines 316-341), translated with the source's
sequence of conditional subtractions and the final `max(0.0f, quality)`. -/
def assessSignalQuality (s : MonitorState) (now : Nat) : ℚ :=
  let quality : ℚ := 100
  let quality := if s.ecgPeakCount < 5 ∨ s.ppgPeakCount < 5 then quality - 30 else quality
  let quality := if ¬ (checkRhythmRegularity s = true) then quality - 20 else quality
  let quality := if |calculateCorrelation s| < 50 then quality - 25 else quality
  let quality := if now - s.lastValidReading > 10000 then quality - 25 else quality
  max 0 quality

/-- `isReadyForMeasurement` (lines 478-481). -/
def isReadyForMeasurement (s : MonitorState) (now : Nat) : Bool :=
  decide (s.ecgPeakCount ≥ 5 ∧ s.ppgPeakCount ≥ 5 ∧ assessSignalQuality s now > 60)

namespace BPAnalysis

/-- `BPAnalysis::compensateForAge` (lines 546-550):
`rawBP * (1 + (age - 30) * 0.005)`, applied unconditionally. -/
def compensateForAge (rawBP : ℚ) (age : Int) : ℚ :=
  rawBP * (1 + ((age : ℚ) - 30) * (5 / 1000))

/-- `BPAnalysis::compensateForGender` (lines 552-555). -/
def compensateForGender (rawBP : ℚ) (isMale : Bool) : ℚ :=
  rawBP * (if isMale then 102 / 100 else 1)

end BPAnalysis

/-- `calculateBloodPressure` (lines 112-172).  Returns the reading together
with the post-call monitor state (the only mutation is the
`lastValidReading = millis()` update on a valid reading). -/
def calculateBloodPressure (s : MonitorState) (now : Nat) : BloodPressureData × MonitorState :=
  let data0 : BloodPressureData :=
    ⟨0, 0, 0, 0, 0, 0, false, true, now, 0, 0, false⟩
  if s.ecgPeakCount < 3 ∨ s.ppgPeakCount < 3 then (data0, s)
  else
    let ptt := calculatePTT s
    if ptt ≤ 0 then (data0, s)
    else
      let pwv := calculatePWV s ptt
      let sys0 :=
        if s.calibrationCount > 0 then s.systolicSlope * ptt + s.systolicIntercept
        else -(12 / 10) * ptt + 180
      let dia0 :=
        if s.calibrationCount > 0 then s.diastolicSlope * ptt + s.diastolicIntercept
        else -(8 / 10) * ptt + 120
      let needsCal := ¬ (s.calibrationCount > 0)
      let sys := BPAnalysis.compensateForGender (BPAnalysis.compensateForAge sys0 s.userAge) s.userIsMale
      let dia := BPAnalysis.compensateForGender (BPAnalysis.compensateForAge dia0 s.userAge) s.userIsMale
      let map := dia + (sys - dia) / 3
      let hrvSq := calculateHRVSq s
      let quality := assessSignalQuality s now
      let corr := calculateCorrelation s
      let rhythm := checkRhythmRegularity s
      let valid : Bool :=
        decide (quality > 70 ∧ sys > 70 ∧ sys < 250 ∧ dia > 40 ∧ dia < 150 ∧ ptt > 50 ∧ ptt < 500)
      let data : BloodPressureData :=
        ⟨sys, dia, map, ptt, pwv, hrvSq, valid, needsCal, now, quality, corr, rhythm⟩
      let s1 := if valid then { s with lastValidReading := now } else s
      (data, s1)

/-- `updateCalibration` (lines 402-435): with at least 2 stored points, an
ordinary least-squares refit of both lines.  The source divides by the
regression denominator `n * sumX2 - sumX * sumX` UNCONDITIONALLY — there is
no zero check.  In IEEE float arithmetic a zero denominator produces NaN/∞;
in this exact model division by zero yields 0.  Either way the previous
coefficients are overwritten. -/
def updateCalibration (s : MonitorState) : MonitorState :=
  if s.calibrationCount < 2 then s
  else
    let pts := (List.range s.calibrationCount).map (fun i => s.calibrationPoints (fin5 i))
    let sumX := (pts.map (fun p => p.ptt)).sum
    let sumYSys := (pts.map (fun p => p.systolic)).sum
    let sumYDia := (pts.map (fun p => p.diastolic)).sum
    let sumXYSys := (pts.map (fun p => p.ptt * p.systolic)).sum
    let sumXYDia := (pts.map (fun p => p.ptt * p.diastolic)).sum
    let sumX2 := (pts.map (fun p => p.ptt * p.ptt)).sum
    let n : ℚ := (s.calibrationCount : ℚ)
    let newSysSlope := (n * sumXYSys - sumX * sumYSys) / (n * sumX2 - sumX * sumX)
    let newSysIntercept := (sumYSys - newSysSlope * sumX) / n
    let newDiaSlope := (n * sumXYDia - sumX * sumYDia) / (n * sumX2 - sumX * sumX)
    let newDiaIntercept := (sumYDia - newDiaSlope * sumX) / n
    { s with
      systolicSlope := newSysSlope
      systolicIntercept := newSysIntercept
      diastolicSlope := newDiaSlope
      diastolicIntercept := newDiaIntercept }

/-- The regression denominator `n * sumX2 - sumX * sumX` of
`updateCalibration` (lines 427 and 430). -/
def regressionDenominator (s : MonitorState) : ℚ :=
  let pts := (List.range s.calibrationCount).map (fun i => s.calibrationPoints (fin5 i))
  let sumX := (pts.map (fun p => p.ptt)).sum
  let sumX2 := (pts.map (fun p => p.ptt * p.ptt)).sum
  (s.calibrationCount : ℚ) * sumX2 - sumX * sumX

/-- `addCalibrationPoint` (lines 377-400): rejected when 5 points are already
stored or the current PTT is invalid; otherwise appends and refits. -/
def addCalibrationPoint (s : MonitorState) (systolic diastolic : ℚ) (now : Nat) :
    Bool × MonitorState :=
  if s.calibrationCount ≥ 5 then (false, s)
  else
    let currentPTT := calculatePTT s
    if currentPTT ≤ 0 then (false, s)
    else
      let s1 := { s with
        calibrationPoints := Function.update s.calibrationPoints (fin5 s.calibrationCount)
          ⟨currentPTT, systolic, diastolic, now⟩
        calibrationCount := s.calibrationCount + 1 }
      (true, updateCalibration s1)

/-- `setPersonalParameters` (lines 520-542).  Note what the source actually
does: it never assigns `userAge`, `userHeight` or `userIsMale`; it only nudges
the calibration coefficients for age > 60, for female, and for height outside
[160, 180]. -/
def setPersonalParameters (s : MonitorState) (age : Int) (height : ℚ) (isMale : Bool) :
    MonitorState :=
  let s1 :=
    if age > 60 then
      { s with
        systolicSlope := s.systolicSlope * (11 / 10)
        diastolicSlope := s.diastolicSlope * (21 / 20) }
    else s
  let s2 :=
    if ¬ isMale then
      { s1 with
        systolicIntercept := s1.systolicIntercept - 5
        diastolicIntercept := s1.diastolicIntercept - 3 }
    else s1
  if height > 180 then { s2 with systolicIntercept := s2.systolicIntercept + 3 }
  else if height < 160 then { s2 with systolicIntercept := s2.systolicIntercept - 3 }
  else s2

/-- The state of a freshly constructed `BloodPressureMonitor`: the
constructor (lines 4-34) zeroes every buffer and the in-class member
initializers (blood_pressure.h) provide the remaining defaults. -/
def baseState : MonitorState where
  calibrationPoints := fun _ => ⟨0, 0, 0, 0⟩
  calibrationCount := 0
  systolicSlope := -(12 / 10)
  systolicIntercept := 180
  diastolicSlope := -(8 / 10)
  diastolicIntercept := 120
  ecgBuffer := fun _ => 0
  ecgBufferIndex := 0
  ecgTimestamps := fun _ => 0
  ppgBuffer := fun _ => 0
  ppgBufferIndex := 0
  ppgTimestamps := fun _ => 0
  ecgPeaks := fun _ => ⟨0, 0, 0⟩
  ppgPeaks := fun _ => ⟨0, 0, 0⟩
  ecgPeakCount := 0
  ppgPeakCount := 0
  rrIntervals := fun _ => 0
  rrCount := 0
  ecgThreshold := 1500
  ppgThreshold := 50000
  adaptiveThresholding := true
  lastSignalQuality := 0
  lastValidReading := 0
  ecgFilterBuffer := fun _ => 0
  ppgFilterBuffer := fun _ => 0
  filterIndex := 0
  userAge := 30
  userHeight := 170
  userIsMale := true

/-- Fresh function-local static storage (C statics are zero-initialized). -/
def statics0 : Statics := ⟨⟨0, 0, false, 0⟩, ⟨0, 0, false, 0⟩, 0⟩

/-- Feed a list of (raw ECG value, time) pairs through `addECGSample`.  The
firmware calls `addECGSample(value, millis())` (sensors.cpp line 482), so the
sample timestamp and the `millis()` value of the call coincide. -/
def runECGSamples (s : MonitorState) (g : Statics) (samples : List (ℚ × Nat)) :
    MonitorState × Statics :=
  samples.foldl (fun p vt => addECGSample p.1 p.2 vt.1 vt.2 vt.2) (s, g)

/-- ECG trace realizing the refractory scenario of claim C7: a confirmed
peak candidate at t = 1050 (emitted) and a second confirmed candidate at
t = 1200, i.e. 150 ms later (inside the 300 ms refractory window). -/
def refractoryTrace : List (ℚ × Nat) :=
  [(20000, 1000), (-20000, 1050), (20000, 1150), (-20000, 1200)]

/-- State with 5 ECG peaks at t = 1000..5000 (step 1000) and 5 PPG peaks
exactly 50 ms after each, so that `calculatePTT` returns exactly 50;
`rrCount = 4` (one fewer than the 5 stored ECG peaks), so the rhythm check
reports irregular and the quality score is 80. -/
def exGateBoundary : MonitorState :=
  { baseState with
    ecgPeakCount := 5
    ppgPeakCount := 5
    ecgPeaks := fun i => if i.val < 5 then ⟨0, 0, 1000 * (i.val + 1)⟩ else ⟨0, 0, 0⟩
    ppgPeaks := fun i => if i.val < 5 then ⟨0, 0, 1000 * (i.val + 1) + 50⟩ else ⟨0, 0, 0⟩
    rrIntervals := fun i => if i.val < 4 then 1000 else 0
    rrCount := 4 }

/-- Same peak layout but with the PPG peaks 100 ms after each ECG peak, so
`calculatePTT` returns exactly 100. -/
def exPtt100 : MonitorState :=
  { exGateBoundary with
    ppgPeaks := fun i => if i.val < 5 then ⟨0, 0, 1000 * (i.val + 1) + 100⟩ else ⟨0, 0, 0⟩ }

/-- Calibrated variant of `exPtt100`: two calibration points with distinct
PTTs and identical reference pressures, whose exact least-squares fit is the
flat line systolic = 125, diastolic = 83 (slope 0). -/
def exCalibrated : MonitorState :=
  { exPtt100 with
    calibrationCount := 2
    calibrationPoints := fun i =>
      if i.val = 0 then ⟨200, 125, 83, 0⟩
      else if i.val = 1 then ⟨300, 125, 83, 1000⟩
      else ⟨0, 0, 0, 0⟩
    systolicSlope := 0
    systolicIntercept := 125
    diastolicSlope := 0
    diastolicIntercept := 83 }

/-- Degenerate calibration store: two points with the SAME stored PTT
(reachable by calling `addCalibrationPoint` twice while the peak buffers are
unchanged), making the regression denominator zero. -/
def exDegenerateCal : MonitorState :=
  { baseState with
    calibrationCount := 2
    calibrationPoints := fun i =>
      if i.val = 0 then ⟨200, 120, 80, 0⟩
      else if i.val = 1 then ⟨200, 130, 85, 1000⟩
      else ⟨0, 0, 0, 0⟩ }

/-- State with 20 ECG peaks but only 3 PPG peaks, and 10 identical stored RR
intervals: the quality score is 70 (> 60), yet one channel has fewer than 5
peaks. -/
def exFewPPG : MonitorState :=
  { baseState with
    ecgPeakCount := 20
    ppgPeakCount := 3
    ecgPeaks := fun i => ⟨0, 0, 1000 * (i.val + 1)⟩
    rrIntervals := fun i => if i.val < 10 then 1000 else 0
    rrCount := 10 }

/-- Full calibration store (5 points), for the store-bound claim. -/
def exFullStore : MonitorState :=
  { baseState with
    calibrationCount := 5
    calibrationPoints := fun i => ⟨(200 : ℚ) + i.val, 120, 80, 0⟩ }

/-- Two `BloodPressureMonitor` instances living in one process.  The
`shared` component is the function-local static storage of
blood_pressure.cpp, of which the process has exactly ONE copy — this is what
the source actually gives two instances. -/
structure TwoMonitors where
  instA : MonitorState
  instB : MonitorState
  shared : Statics

/-- An ECG ingestion event addressed to one of the two instances. -/
inductive BPEvent where
  | ecgToA (value : ℚ) (timestamp now : Nat)
  | ecgToB (value : ℚ) (timestamp now : Nat)

/-- One ingestion step under the source's semantics: whichever instance
receives the sample, the detector statics are read from and written to the
single shared copy. -/
def stepShared (p : TwoMonitors) (e : BPEvent) : TwoMonitors :=
  match e with
  | .ecgToA v t now =>
      let r := addECGSample p.instA p.shared v t now
      ⟨r.1, p.instB, r.2⟩
  | .ecgToB v t now =>
      let r := addECGSample p.instB p.shared v t now
      ⟨p.instA, r.1, r.2⟩

/-- Run an interleaving of ingestion events over the two instances. -/
def runShared (evs : List BPEvent) (p : TwoMonitors) : TwoMonitors :=
  evs.foldl stepShared p

/-- Two freshly constructed instances in a fresh process. -/
def twoFresh : TwoMonitors := ⟨baseState, baseState, statics0⟩

/-- The interleaving used against claim C9: instance A ingests one large
sample, then instance B ingests a zero sample. -/
def interleavingAB : List BPEvent :=
  [.ecgToA 20000 500 500, .ecgToB 0 1000 1000]

/-- The same events with instance A's sample removed. -/
def eventsBOnly : List BPEvent :=
  [.ecgToB 0 1000 1000]

/-- Inside the refractory window the detector never fires: the only `return
true` of the source sits under `currentTime - lastPeakTime > refractory`. -/
theorem detectPeakStep_refractory (threshold : ℚ) (refractory : Nat) (value : ℚ)
    (now : Nat) (d : DetectorState) (h : now - d.lastPeakTime ≤ refractory) :
    (detectPeakStep threshold refractory value now d).1 = false := by
  unfold detectPeakStep
  dsimp only
  split_ifs <;> first | omega | rfl

/-- `adaptThresholds` only touches the thresholds: peak stores and counts
are unchanged. -/
theorem adaptThresholds_preserves_peaks (s : MonitorState) (lastUpdate now : Nat) :
    (adaptThresholds s lastUpdate now).1.ecgPeakCount = s.ecgPeakCount ∧
    (adaptThresholds s lastUpdate now).1.ecgPeaks = s.ecgPeaks ∧
    (adaptThresholds s lastUpdate now).1.ppgPeakCount = s.ppgPeakCount ∧
    (adaptThresholds s lastUpdate now).1.ppgPeaks = s.ppgPeaks := by
  unfold adaptThresholds
  dsimp only
  split_ifs <;> simp

set_option maxRecDepth 100000

/-- Within 300 ms of the previous ECG detection, `addECGSample` appends no
ECG peak (the candidate, if any, is silently discarded). -/
theorem addECGSample_refractory (s : MonitorState) (g : Statics) (v : ℚ) (t now : Nat)
    (h : now - g.ecgDet.lastPeakTime ≤ 300) :
    (addECGSample s g v t now).1.ecgPeakCount = s.ecgPeakCount ∧
    (addECGSample s g v t now).1.ecgPeaks = s.ecgPeaks := by
  unfold addECGSample detectECGPeak
  dsimp only
  rw [detectPeakStep_refractory _ _ _ _ _ h]
  simp only [Bool.false_eq_true, if_false]
  split_ifs with ha
  · exact ⟨(adaptThresholds_preserves_peaks _ _ _).1, (adaptThresholds_preserves_peaks _ _ _).2.1⟩
  · exact ⟨rfl, rfl⟩

/-- Within 400 ms of the previous PPG detection, `addPPGSample` appends no
PPG peak. -/
theorem addPPGSample_refractory (s : MonitorState) (g : Statics) (ir red : ℚ) (t now : Nat)
    (h : now - g.ppgDet.lastPeakTime ≤ 400) :
    (addPPGSample s g ir red t now).1.ppgPeakCount = s.ppgPeakCount ∧
    (addPPGSample s g ir red t now).1.ppgPeaks = s.ppgPeaks := by
  unfold addPPGSample detectPPGPeak
  dsimp only
  rw [detectPeakStep_refractory _ _ _ _ _ h]
  simp only [Bool.false_eq_true, if_false]
  exact ⟨rfl, rfl⟩

/-- Claim C7: on each channel, a confirmed peak candidate arriving within the
channel's refractory interval (300 ms for ECG, 400 ms for PPG) of the
previously emitted peak is silently discarded and no peak is appended;
in particular, an ECG trace producing two confirmed candidates 150 ms apart
(at t = 1050 and t = 1200) registers exactly one peak. -/
theorem refractory_enforcement :
    (∀ (s : MonitorState) (g : Statics) (v : ℚ) (t now : Nat),
        now - g.ecgDet.lastPeakTime ≤ 300 →
        (addECGSample s g v t now).1.ecgPeakCount = s.ecgPeakCount ∧
        (addECGSample s g v t now).1.ecgPeaks = s.ecgPeaks) ∧
    (∀ (s : MonitorState) (g : Statics) (ir red : ℚ) (t now : Nat),
        now - g.ppgDet.lastPeakTime ≤ 400 →
        (addPPGSample s g ir red t now).1.ppgPeakCount = s.ppgPeakCount ∧
        (addPPGSample s g ir red t now).1.ppgPeaks = s.ppgPeaks) ∧
    (runECGSamples baseState statics0 refractoryTrace).1.ecgPeakCount = 1 :=
  ⟨fun s g v t now h => addECGSample_refractory s g v t now h,
   fun s g ir red t now h => addPPGSample_refractory s g ir red t now h,
   by with_unfolding_all decide⟩

/-- Witness for C7: a concrete ingestion 100 ms after the previous ECG peak
detection leaves the peak count unchanged. -/
theorem refractory_enforcement_witness :
    1000 - (⟨⟨0, 0, false, 900⟩, ⟨0, 0, false, 0⟩, 0⟩ : Statics).ecgDet.lastPeakTime ≤ 300 ∧
    (addECGSample baseState ⟨⟨0, 0, false, 900⟩, ⟨0, 0, false, 0⟩, 0⟩ 5 1000 1000).1.ecgPeakCount
      = baseState.ecgPeakCount :=
  ⟨by decide,
   (refractory_enforcement.1 baseState ⟨⟨0, 0, false, 900⟩, ⟨0, 0, false, 0⟩, 0⟩ 5 1000 1000
      (by decide)).1⟩

/-- Claim C9 (refuted, supporting the code-bug verdict): because the peak
detectors keep their state in function-local `static` variables, one process
has a single copy shared by all `BloodPressureMonitor` instances.  After the
interleaving [A receives 20000 at t = 500, B receives 0 at t = 1000],
instance B has registered one ECG peak, while running only B's events from
the same fresh process gives B zero peaks — so B's observable state is NOT
what it would be had A received no samples. -/
theorem shared_static_breaks_independence :
    (runShared interleavingAB twoFresh).instB.ecgPeakCount = 1 ∧
    (runShared eventsBOnly twoFresh).instB.ecgPeakCount = 0 := by
  with_unfolding_all decide

/-- Claim C3 (refuted at the code level, supporting the code-bug verdict):
with two stored calibration points of identical PTT (200 and 200), the
regression denominator is zero, yet `updateCalibration` performs the division
anyway and OVERWRITES the previous systolic slope (−1.2) instead of keeping
it.  (In this exact model division by zero yields 0; in the IEEE float
arithmetic of the source it yields NaN — either way the previous coefficient
is not kept.) -/
theorem updateCalibration_zero_denominator :
    regressionDenominator exDegenerateCal = 0 ∧
    exDegenerateCal.systolicSlope = -(12 / 10) ∧
    (updateCalibration exDegenerateCal).systolicSlope = 0 ∧
    (updateCalibration exDegenerateCal).systolicSlope ≠ exDegenerateCal.systolicSlope := by
  with_unfolding_all decide

/-- Claim C8 (refuted, supporting the code-bug verdict):
`setPersonalParameters(50, 170, false)` leaves `userAge = 30` and
`userIsMale = true` (the source never stores its arguments), so the next
reading with pre-compensation systolic 120 comes out as 120 × 1.02 = 122.4,
not the 120 × 1.1 × 1.0 = 132 the claim's factors for (age 50, female)
require. -/
theorem setPersonalParameters_not_applied :
    (setPersonalParameters exCalibrated 50 170 false).userAge = 30 ∧
    (setPersonalParameters exCalibrated 50 170 false).userIsMale = true ∧
    (setPersonalParameters exCalibrated 50 170 false).systolicSlope * 100 +
      (setPersonalParameters exCalibrated 50 170 false).systolicIntercept = 120 ∧
    (calculateBloodPressure (setPersonalParameters exCalibrated 50 170 false) 5000).1.pulseTransitTime = 100 ∧
    (calculateBloodPressure (setPersonalParameters exCalibrated 50 170 false) 5000).1.systolic = 612 / 5 ∧
    (612 / 5 : ℚ) ≠ BPAnalysis.compensateForGender (BPAnalysis.compensateForAge 120 50) false := by
  with_unfolding_all decide

/-- A scan-with-break over an option-producing guard is the first-match
search followed by extraction. -/
theorem findSome?_guard_eq_find?_map {α β : Type} (P : α → Prop) [DecidablePred P]
    (g : α → β) (l : List α) :
    (l.findSome? fun a => if P a then some (g a) else none)
      = (l.find? fun a => decide (P a)).map g := by
  induction l with
  | nil => rfl
  | cons a l ih =>
    by_cases h : P a <;>
      simp [List.findSome?_cons, List.find?_cons, h, ih]

/-- The inner loop of `calculatePTT` computes exactly the first-match pairing
described by the specification (the two guards are equivalent over ℕ). -/
theorem pttInnerScan_eq_firstMatch (s : MonitorState) (e : Nat) :
    pttInnerScan s e = pttFirstMatch s e := by
  unfold pttInnerScan pttFirstMatch
  rw [findSome?_guard_eq_find?_map
    (fun j => ppgPeakTime s j > e ∧ ppgPeakTime s j - e ≥ 50 ∧ ppgPeakTime s j - e ≤ 400)
    (fun j => ppgPeakTime s j - e) (ppgWindow s)]
  have hp :
      (fun j => decide (ppgPeakTime s j > e ∧ ppgPeakTime s j - e ≥ 50 ∧
        ppgPeakTime s j - e ≤ 400))
      = fun j => decide (e + 50 ≤ ppgPeakTime s j ∧ ppgPeakTime s j ≤ e + 400) := by
    funext j
    rw [decide_eq_decide]
    omega
  rw [hp]

/-- The accumulator loop of `calculatePTT` computes the sum and the count of
the matched deltas. -/
theorem foldl_pttAccum (s : MonitorState) (l : List Nat) :
    ∀ (a : ℚ) (n : Nat),
      l.foldl (pttAccumStep s) (a, n)
      = (a + ((l.filterMap fun i => pttInnerScan s (ecgPeakTime s i)).map (Nat.cast : ℕ → ℚ)).sum,
         n + (l.filterMap fun i => pttInnerScan s (ecgPeakTime s i)).length) := by
  induction l with
  | nil => intro a n; simp
  | cons i l ih =>
    intro a n
    rcases h : pttInnerScan s (ecgPeakTime s i) with _ | d <;>
      simp [List.foldl_cons, List.filterMap_cons, pttAccumStep, h, ih, Prod.ext_iff] <;>
      constructor <;> [ring; omega]

/-- The source's `calculatePTT` loop agrees with the specification-side
first-match pairing description on every state. -/
theorem calculatePTT_eq_spec (s : MonitorState) : calculatePTT s = calculatePTTSpec s := by
  unfold calculatePTT calculatePTTSpec pttDeltas
  by_cases h : s.ecgPeakCount < 2 ∨ s.ppgPeakCount < 2
  · rw [if_pos h, if_pos h]
  · rw [if_neg h, if_neg h]
    dsimp only
    rw [foldl_pttAccum s (ecgWindow s) 0 0]
    simp only [pttInnerScan_eq_firstMatch, zero_add]
    by_cases hemp : ((ecgWindow s).filterMap fun i => pttFirstMatch s (ecgPeakTime s i)) = []
    · simp [hemp]
    · rw [if_pos (List.length_pos.mpr hemp), if_neg (by simp [List.isEmpty_iff, hemp])]

/-- Claim C2: `calculatePTT` returns the −1 sentinel when fewer than 2 ECG
or fewer than 2 PPG peaks exist or no pair matches, and otherwise the
arithmetic mean of the deltas obtained by pairing each of the most recent
up-to-10 ECG peaks (oldest first) with the first of the most recent up-to-10
PPG peaks (scanned oldest first) whose timestamp is at least 50 ms and at
most 400 ms after that ECG peak's timestamp, stopping at the first match —
exactly the behaviour of `calculatePTTSpec`, written from the claim. -/
theorem calculatePTT_matches_pairing_spec (s : MonitorState) :
    calculatePTT s = calculatePTTSpec s :=
  calculatePTT_eq_spec s

/-- Every matched delta lies in [50, 400] ms, since the match guard demands
`ecgTime + 50 ≤ ppgTime ≤ ecgTime + 400`. -/
theorem pttDeltas_bounds (s : MonitorState) (d : Nat) (hd : d ∈ pttDeltas s) :
    50 ≤ d ∧ d ≤ 400 := by
  unfold pttDeltas at hd
  rcases List.mem_filterMap.mp hd with ⟨i, _, hsome⟩
  unfold pttFirstMatch at hsome
  rcases Option.map_eq_some'.mp hsome with ⟨j, hfind, hval⟩
  have hp := List.find?_some hfind
  rw [decide_eq_true_eq] at hp
  omega

/-- A list of naturals, each between 50 and 400, has its rational sum between
`50 · length` and `400 · length`. -/
theorem sum_bounds_of_mem (ds : List Nat) (h : ∀ d ∈ ds, 50 ≤ d ∧ d ≤ 400) :
    (50 : ℚ) * ds.length ≤ (ds.map (Nat.cast : ℕ → ℚ)).sum ∧
    (ds.map (Nat.cast : ℕ → ℚ)).sum ≤ 400 * ds.length := by
  induction ds with
  | nil => simp
  | cons d ds ih =>
    have hd := h d (by simp)
    have h1 : (50 : ℚ) ≤ (d : ℚ) := by exact_mod_cast hd.1
    have h2 : (d : ℚ) ≤ 400 := by exact_mod_cast hd.2
    have iht := ih fun x hx => h x (by simp [hx])
    simp only [List.map_cons, List.sum_cons, List.length_cons, Nat.cast_add, Nat.cast_one]
    constructor <;> linarith [iht.1, iht.2]

/-- Claim C10: whenever `calculatePTT` does not return the −1 sentinel, its
result lies in [50, 400] ms, and is in particular below 500 ms — the validity
gate's upper PTT bound can never be the failing condition. -/
theorem calculatePTT_range (s : MonitorState) (h : calculatePTT s ≠ -1) :
    50 ≤ calculatePTT s ∧ calculatePTT s ≤ 400 ∧ calculatePTT s < 500 := by
  rw [calculatePTT_eq_spec] at h ⊢
  unfold calculatePTTSpec at h ⊢
  by_cases h2 : s.ecgPeakCount < 2 ∨ s.ppgPeakCount < 2
  · rw [if_pos h2] at h
    exact absurd rfl h
  · rw [if_neg h2] at h ⊢
    dsimp only at h ⊢
    by_cases hemp : (pttDeltas s).isEmpty
    · rw [if_pos hemp] at h
      exact absurd rfl h
    · have hne : pttDeltas s ≠ [] := by simpa [List.isEmpty_iff] using hemp
      have hlen : 0 < (pttDeltas s).length := List.length_pos.mpr hne
      have hlenQ : (0 : ℚ) < ((pttDeltas s).length : ℚ) := by exact_mod_cast hlen
      have hb := sum_bounds_of_mem (pttDeltas s) fun d hd => pttDeltas_bounds s d hd
      rw [if_neg hemp]
      refine ⟨?_, ?_, ?_⟩
      · rw [le_div_iff hlenQ]
        linarith [hb.1]
      · rw [div_le_iff hlenQ]
        linarith [hb.2]
      · rw [div_lt_iff hlenQ]
        linarith [hb.2, hlenQ]

/-- Witness for C10: on a state whose five ECG/PPG peak pairs are 100 ms
apart, `calculatePTT` is not −1 and the bounds hold. -/
theorem calculatePTT_range_witness :
    calculatePTT exPtt100 ≠ -1 ∧
    (50 ≤ calculatePTT exPtt100 ∧ calculatePTT exPtt100 ≤ 400 ∧ calculatePTT exPtt100 < 500) :=
  ⟨by with_unfolding_all decide, calculatePTT_range exPtt100 (by with_unfolding_all decide)⟩

/-- Claim C5: on every state (in particular every reachable one), the quality
score equals 100 minus 30 if either channel has fewer than 5 peaks, minus 20
if the rhythm is not regular, minus 25 if the absolute correlation is below
50, minus 25 if more than 10 s have elapsed since the last valid reading,
floored at 0 — and consequently always lies in [0, 100]. -/
theorem assessSignalQuality_formula_bounds (s : MonitorState) (now : Nat) :
    assessSignalQuality s now =
      max 0 (100 - (if s.ecgPeakCount < 5 ∨ s.ppgPeakCount < 5 then (30 : ℚ) else 0)
        - (if ¬ (checkRhythmRegularity s = true) then (20 : ℚ) else 0)
        - (if |calculateCorrelation s| < 50 then (25 : ℚ) else 0)
        - (if now - s.lastValidReading > 10000 then (25 : ℚ) else 0)) ∧
    0 ≤ assessSignalQuality s now ∧ assessSignalQuality s now ≤ 100 := by
  unfold assessSignalQuality
  dsimp only
  split_ifs <;> norm_num [max_def] <;> split_ifs <;> norm_num

/-- Counterexample to claim C4 as stated: a state with at least 3 peaks on
both channels (20 ECG, 3 PPG) and quality 70 > 60, on which
`isReadyForMeasurement` nevertheless returns false — the source requires at
least 5 peaks per channel, not 3. -/
theorem isReadyForMeasurement_three_peaks_cex :
    3 ≤ exFewPPG.ecgPeakCount ∧ 3 ≤ exFewPPG.ppgPeakCount ∧
    60 < assessSignalQuality exFewPPG 1000 ∧
    isReadyForMeasurement exFewPPG 1000 = false := by
  with_unfolding_all decide

/-- Claim C4 as amended: `isReadyForMeasurement` returns false whenever
either channel has fewer than 5 recorded peaks (hence also below 3), and
returns true exactly when at least 5 ECG and 5 PPG peaks are recorded and
the signal quality exceeds 60. -/
theorem isReadyForMeasurement_gate (s : MonitorState) (now : Nat) :
    ((s.ecgPeakCount < 5 ∨ s.ppgPeakCount < 5) → isReadyForMeasurement s now = false) ∧
    (isReadyForMeasurement s now = true ↔
      5 ≤ s.ecgPeakCount ∧ 5 ≤ s.ppgPeakCount ∧ 60 < assessSignalQuality s now) := by
  unfold isReadyForMeasurement
  constructor
  · intro h
    simp only [decide_eq_false_iff_not]
    rintro ⟨h1, h2, _⟩
    omega
  · simp only [decide_eq_true_eq]

/-- Witness for the amended C4: on a state with only 3 PPG peaks the
readiness gate is closed. -/
theorem isReadyForMeasurement_gate_witness :
    (exFewPPG.ecgPeakCount < 5 ∨ exFewPPG.ppgPeakCount < 5) ∧
    isReadyForMeasurement exFewPPG 1000 = false :=
  ⟨by decide, (isReadyForMeasurement_gate exFewPPG 1000).1 (by decide)⟩

/-- Counterexample to claim C1 as stated: a full reading (5 peaks per
channel, PTT = 50 > 0) whose quality (80), systolic (122.4), diastolic
(81.6) and PTT (50) all satisfy the claim's closed-interval gate
quality > 70, systolic ∈ [70,250], diastolic ∈ [40,150], PTT ∈ [50,500],
yet `validReading` is false — the source's comparisons are strict, and
PTT = 50 fails `ptt > 50`. -/
theorem validity_gate_boundary_cex :
    70 < (calculateBloodPressure exGateBoundary 5000).1.signalQuality ∧
    70 ≤ (calculateBloodPressure exGateBoundary 5000).1.systolic ∧
    (calculateBloodPressure exGateBoundary 5000).1.systolic ≤ 250 ∧
    40 ≤ (calculateBloodPressure exGateBoundary 5000).1.diastolic ∧
    (calculateBloodPressure exGateBoundary 5000).1.diastolic ≤ 150 ∧
    50 ≤ (calculateBloodPressure exGateBoundary 5000).1.pulseTransitTime ∧
    (calculateBloodPressure exGateBoundary 5000).1.pulseTransitTime ≤ 500 ∧
    (calculateBloodPressure exGateBoundary 5000).1.validReading = false := by
  with_unfolding_all decide

/-- Claim C1 as amended: every reading of `calculateBloodPressure` has
`validReading = true` exactly when quality > 70 and systolic ∈ (70, 250) and
diastolic ∈ (40, 150) and PTT ∈ (50, 500), all bounds strict; and whenever
the reading is valid, the engine's last-valid-reading timestamp is set to
the time of the call. -/
theorem calculateBloodPressure_validity_gate (s : MonitorState) (now : Nat) :
    ((calculateBloodPressure s now).1.validReading = true ↔
      70 < (calculateBloodPressure s now).1.signalQuality ∧
      70 < (calculateBloodPressure s now).1.systolic ∧
      (calculateBloodPressure s now).1.systolic < 250 ∧
      40 < (calculateBloodPressure s now).1.diastolic ∧
      (calculateBloodPressure s now).1.diastolic < 150 ∧
      50 < (calculateBloodPressure s now).1.pulseTransitTime ∧
      (calculateBloodPressure s now).1.pulseTransitTime < 500) ∧
    ((calculateBloodPressure s now).1.validReading = true →
      (calculateBloodPressure s now).2.lastValidReading = now) := by
  unfold calculateBloodPressure
  dsimp only
  by_cases h1 : s.ecgPeakCount < 3 ∨ s.ppgPeakCount < 3
  · rw [if_pos h1]
    refine ⟨?_, ?_⟩
    · simp only [Bool.false_eq_true, false_iff]
      rintro ⟨hq, _⟩
      norm_num at hq
    · intro hv
      exact absurd hv (by simp)
  · rw [if_neg h1]
    by_cases h2 : calculatePTT s ≤ 0
    · rw [if_pos h2]
      refine ⟨?_, ?_⟩
      · simp only [Bool.false_eq_true, false_iff]
        rintro ⟨hq, _⟩
        norm_num at hq
      · intro hv
        exact absurd hv (by simp)
    · rw [if_neg h2]
      dsimp only
      refine ⟨?_, ?_⟩
      · simp only [decide_eq_true_eq]
      · intro hv
        simp only [hv, if_true]

/-- Claim C6: calling `addCalibrationPoint` when 5 calibration points are
already stored returns false and leaves the whole monitor state — the
calibration store, the count, and all four model coefficients — unchanged. -/
theorem addCalibrationPoint_full_store (s : MonitorState) (sys dia : ℚ) (now : Nat)
    (h : s.calibrationCount = 5) :
    addCalibrationPoint s sys dia now = (false, s) := by
  unfold addCalibrationPoint
  rw [if_pos (show s.calibrationCount ≥ 5 by omega)]

/-- Witness for C6: a concrete full store rejects a sixth point and is left
intact. -/
theorem addCalibrationPoint_full_store_witness :
    exFullStore.calibrationCount = 5 ∧
    addCalibrationPoint exFullStore 120 80 99 = (false, exFullStore) :=
  ⟨by decide, addCalibrationPoint_full_store exFullStore 120 80 99 (by decide)⟩

/-- Witness for the amended C1: a concrete valid reading (calibrated flat
model, PTT = 100, quality 80) whose last-valid-reading timestamp is updated
to the call time. -/
theorem calculateBloodPressure_validity_gate_witness :
    (calculateBloodPressure exCalibrated 5000).1.validReading = true ∧
    (calculateBloodPressure exCalibrated 5000).2.lastValidReading = 5000 :=
  ⟨by with_unfolding_all decide,
   (calculateBloodPressure_validity_gate exCalibrated 5000).2 (by with_unfolding_all decide)⟩
